import Mathlib

/-!
Shallow embedding of
`packages/core/src/codewhisperer/commands/startTransformByQ.ts`
(the orchestration state machine for the "transform by Q" code
transformation job), together with theorems settling the frozen claims
about it.

Modelling conventions:
* The process-wide mutable record `transformByQState` plus the global
  `jobPlanProgress` map become an explicit `QState` value threaded
  through every function.
* Every `async` source function becomes a Lean function
  `Env → QState → Except TError α × QState × List Event`: the `Except`
  is the JS exception channel, the trace records externally visible
  calls (remote start/stop/resume, polls, cleanup, fired chat events).
* Outcomes of external collaborator calls (remote API, file system,
  maven tool) are supplied by an `Env` record, one field per call site,
  since those collaborators live outside the embedded file.
* Cancellation (the user's concurrent `stopTransformByQ`) is cooperative:
  the flag can only change at `await` suspension points.  `applyCancel`
  consults `Env.cancelSignal` at each such point and, like
  `stopTransformByQ`, moves a RUNNING job to CANCELLED.
-/

namespace StartTransformByQ

/-! ### String helpers (JS `String.prototype.includes` / `toLowerCase`) -/

def startsWithChars : List Char → List Char → Bool
  | [], _ => true
  | _ :: _, [] => false
  | n :: ns, h :: hs => n == h && startsWithChars ns hs

def containsChars (needle : List Char) : List Char → Bool
  | [] => startsWithChars needle []
  | h :: t => startsWithChars needle (h :: t) || containsChars needle t

/-- JS `s.includes(sub)`. -/
def strIncludes (s sub : String) : Bool := containsChars sub.data s.data

/-- JS `s.toLowerCase()` (ASCII-adequate for the matched message fragments). -/
def strLower (s : String) : String := ⟨s.data.map Char.toLower⟩

/-! ### Data model -/

/-- `StepProgress` enum from `codewhisperer/models/model` (spec §3: plan-step
progress is one of PENDING, SUCCEEDED, FAILED). -/
inductive StepProgress
  | pending
  | succeeded
  | failed
deriving DecidableEq, Repr

/-- Modelled from the spec: the run status of `transformByQState`
(spec §3 lists NOT_STARTED, RUNNING, PAUSED, SUCCEEDED,
PARTIALLY_SUCCEEDED, FAILED, CANCELLED); the enum itself lives in
`codewhisperer/models/model`, outside the embedded file. -/
inductive RunStatus
  | notStarted
  | running
  | paused
  | succeeded
  | partiallySucceeded
  | failed
  | cancelled
deriving DecidableEq, Repr

/-- `TransformationType` from `codewhisperer/models/model`. -/
inductive TransformationType
  | languageUpgrade
  | sqlConversion
deriving DecidableEq, Repr

/-- The global `jobPlanProgress` map (keys `uploadCode`, `buildCode`,
`generatePlan`, `transformCode`). -/
structure JobPlanProgress where
  uploadCode : StepProgress
  buildCode : StepProgress
  generatePlan : StepProgress
  transformCode : StepProgress
deriving DecidableEq, Repr

/-- The fields of `transformByQState` (plus the global `jobPlanProgress`)
that the embedded orchestration reads or writes.  The failure
notification/chat message use `Option String`: JS stores a falsy value
(`undefined`/`''`) when unset and the source guards with `if (!get...())`
and `??`. -/
structure QState where
  status : RunStatus
  polledJobStatus : String
  jobId : String
  jobFailureErrorNotification : Option String
  jobFailureErrorChatMessage : Option String
  payloadFilePath : String
  preBuildLogFilePath : String
  transformationType : TransformationType
  intervalId : Option Nat
  hasSeenTransforming : Bool
  planProgress : JobPlanProgress
deriving DecidableEq, Repr

/-- The error channel: named error classes from `amazonqGumby/errors`
plus plain `Error(msg)` values (also used for errors surfaced by
external collaborator calls). -/
inductive TError
  | jobStartError
  | pollJobError
  | transformationPreBuildError
  | moduleUploadError
  | alternateDependencyVersionsNotFound
  | cancellationError
  | err (msg : String)
deriving DecidableEq, Repr

/-- JS `error.message`. -/
def TError.message : TError → String
  | .jobStartError => "JobStartError"
  | .pollJobError => "PollJobError"
  | .transformationPreBuildError => "TransformationPreBuildError"
  | .moduleUploadError => "ModuleUploadError"
  | .alternateDependencyVersionsNotFound => "AlternateDependencyVersionsNotFoundError"
  | .cancellationError => "Transform by Q was cancelled"
  | .err msg => msg

/-- Externally visible calls and fired events, recorded as a trace. -/
inductive Event
  | startJobCalled
  | pollPlanCalled
  | pollCompleteCalled
  | resumeCalled (jobId : String) (outcome : String)
  | stopJobCalled (jobId : String)
  | cleanupCalled
  | retryReentered
  | hilArtifactsCleanedUp
  | errorThrownFired
  | hilPromptFired
  | transformationFinishedFired
  | reviewChangesStarted
deriving DecidableEq, Repr

/-! ### Message constants

Modelled from the spec: the user-facing copy lives in
`codewhisperer/models/constants` (outside the embedded file); only the
identity of these strings (pairwise distinct, e.g. quota-specific vs
generic) matters to the orchestration logic. -/

def failedToUploadProjectNotification : String := "failed to upload project notification"

def failedToUploadProjectChatMessage : String := "failed to upload project chat message"

def failedToStartJobNotification : String := "failed to start job notification"

def failedToStartJobChatMessage : String := "failed to start job chat message"

def tooManyJobsNotification : String := "too many jobs notification"

def tooManyJobsChatMessage : String := "too many jobs chat message"

def linesOfCodeLimitBreachedNotification : String := "lines of code limit breached notification"

def linesOfCodeLimitBreachedChatMessage : String := "lines of code limit breached chat message"

def failedToCompleteJobNotification : String := "failed to complete job notification"

def failedToCompleteJobChatMessage : String := "failed to complete job chat message"

/-- Modelled from the spec: the "no versions available" sentinel returned by
the dependency tool (`dependencyNoAvailableVersions` in
`amazonqGumby/models/constants`). -/
def dependencyNoAvailableVersions : String := "NoVersionsFound"

/-- The path the pre-build logs are extracted to in
`pollTransformationStatusUntilPlanReady` (temp dir + `buildCommandOutput.log`). -/
def buildCommandOutputLogPath : String := "q-transformation-build-logs/buildCommandOutput.log"

/-! ### Environment -/

/-- Result of `zipCode` (`transformApiHandler`). -/
structure ZipCodeResult where
  tempFilePath : String
  fileSize : Nat
deriving DecidableEq, Repr

/-- Result of `parseVersionsListFromPomFile` (`transformFileHandler`). -/
structure VersionsResult where
  latestVersion : String
  majorVersions : List String
  minorVersions : List String
  status : String
deriving DecidableEq, Repr

/-- Suspension points at which the concurrent `stopTransformByQ` can flip the
cancellation flag (spec §5: cancellation is cooperative; the flag only
changes while the orchestrating task is suspended at an `await`). -/
inductive CancelPoint
  | duringUpload
  | postUploadSleep
  | duringStartCall
  | postStartSleep
  | duringPlanPoll
  | duringCompletePoll
deriving DecidableEq, Repr

/-- Per-call outcomes for one `initiateHumanInTheLoopPrompt` attempt. -/
structure HilEnv where
  getTransformationSteps : Except TError Unit
  transformationStepFound : Bool
  progressUpdateFound : Bool
  artifactId : Option String
  artifactType : Option String
  downloadHilResultArchive : Except TError Unit
  getJsonValuesFromManifestFile : Except TError String
  createPomFileCopy : Except TError Unit
  replacePomFileVersion : Except TError Unit
  getCodeIssueSnippetFromPom : Except TError Unit
  runMavenDependencyUpdateCommands : Except TError Unit
  getDependencyListXmlOutput : Except TError String
  parseVersionsListFromPomFile : Except TError VersionsResult
  resumeRejected : Except TError Unit

/-- Per-call outcomes for one `finishHumanInTheLoop` invocation. -/
structure FinishEnv where
  createPomFileCopy : Except TError Unit
  replacePomFileVersion : Except TError Unit
  prepareProjectDependencies : Except TError Unit
  zipCode : Except TError String
  uploadPayload : Except TError Unit
  resumeCompleted : Except TError Unit
  resumeRejected : Except TError Unit

/-- Outcomes of all external collaborator calls for one `startTransformByQ`
run, plus the cancellation schedule. -/
structure Env where
  zipCode : Except TError ZipCodeResult
  uploadPayload : Except TError String
  startJob : Except TError String
  pollPlan : Except TError String
  downloadBuildLogs : Except TError Unit
  buildLogExists : Bool
  pollComplete : Nat → Except TError String
  hil : Nat → HilEnv
  stopJob : Except TError Unit
  cancelSignal : CancelPoint → Bool

/-- The concurrent `stopTransformByQ` observed at a suspension point: if the
signal fires while the job is RUNNING it moves it to CANCELLED and records
the polled status, exactly as `stopTransformByQ` does (lines 796-799). -/
def applyCancel (env : Env) (p : CancelPoint) (st : QState) : QState :=
  if env.cancelSignal p = true ∧ st.status = RunStatus.running then
    { st with status := RunStatus.cancelled, polledJobStatus := "CANCELLED" }
  else st

/-- Modelled from the spec: `throwIfCancelled` (in `transformApiHandler`,
outside the embedded file) throws a cancellation error iff the cancellation
flag (status CANCELLED) is set (spec §5 `throwIfCancelled`-style checks). -/
def throwIfCancelled (st : QState) : Except TError Unit :=
  if st.status = RunStatus.cancelled then Except.error TError.cancellationError
  else Except.ok ()

/-- The guarded generic-message assignment repeated verbatim in the source at
lines 511-516, 556-561 and 572-577: set the "job did not complete" texts only
where no value was already set. -/
def setGenericFailureIfUnset (st : QState) : QState :=
  let st :=
    if st.jobFailureErrorNotification = none then
      { st with jobFailureErrorNotification := some failedToCompleteJobNotification }
    else st
  if st.jobFailureErrorChatMessage = none then
    { st with jobFailureErrorChatMessage := some failedToCompleteJobChatMessage }
  else st

/-! ### Stage functions (lines 199-842 of the source) -/

/-- `setTransformationToRunningState` (lines 632-652): reset the modelled
fields for a fresh run.  (The telemetry/«context variable» side effects touch
no modelled state.)  Note: the failure notification/chat message are *not*
reset here, faithful to the source. -/
def setTransformationToRunningState (st : QState) : QState :=
  { st with
    status := RunStatus.running
    planProgress :=
      { uploadCode := StepProgress.pending, buildCode := StepProgress.pending,
        generatePlan := StepProgress.pending, transformCode := StepProgress.pending }
    jobId := ""
    polledJobStatus := ""
    hasSeenTransforming := false }

/-- `startInterval` (lines 123-132): registers the progress-refresh interval
timer and stores its id. -/
def startInterval (st : QState) : QState :=
  { st with intervalId := some 1 }

/-- `preTransformationUploadCode` (lines 199-254): zip the project, upload the
payload, then (line 250) check cancellation and (line 251) sleep before the
job start.  The catch at lines 233-248 sets the upload-failure texts
*unconditionally* and rethrows the original error. -/
def preTransformationUploadCode (env : Env) (st : QState) :
    Except TError String × QState × List Event :=
  match throwIfCancelled st with
  | Except.error e => (Except.error e, st, [])
  | Except.ok () =>
    match env.zipCode with
    | Except.error e =>
      let st := { st with
        jobFailureErrorNotification :=
          some (failedToUploadProjectNotification ++ " " ++ e.message)
        jobFailureErrorChatMessage :=
          some (failedToUploadProjectChatMessage ++ " " ++ e.message) }
      (Except.error e, st, [Event.errorThrownFired])
    | Except.ok zipCodeResult =>
      let st := { st with payloadFilePath := zipCodeResult.tempFilePath }
      match env.uploadPayload with
      | Except.error e =>
        let st := { st with
          jobFailureErrorNotification :=
            some (failedToUploadProjectNotification ++ " " ++ e.message)
          jobFailureErrorChatMessage :=
            some (failedToUploadProjectChatMessage ++ " " ++ e.message) }
        (Except.error e, st, [Event.errorThrownFired])
      | Except.ok uploadId =>
        let st := applyCancel env CancelPoint.duringUpload st
        match throwIfCancelled st with
        | Except.error e => (Except.error e, st, [])
        | Except.ok () =>
          let st := applyCancel env CancelPoint.postUploadSleep st
          (Except.ok uploadId, st, [])

/-- `startTransformationJob` (lines 459-503): call the remote `startJob`; on
failure classify the (lowercased) error message into quota / LOC-limit /
generic texts and throw `JobStartError`; on success sleep (line 499) and check
cancellation (line 500) before returning the job id. -/
def startTransformationJob (env : Env) (uploadId : String) (st : QState) :
    Except TError String × QState × List Event :=
  match env.startJob with
  | Except.error e =>
    let st := applyCancel env CancelPoint.duringStartCall st
    let errorMessage := strLower e.message
    let st :=
      if strIncludes errorMessage "too many active running jobs" then
        { st with
          jobFailureErrorNotification := some tooManyJobsNotification
          jobFailureErrorChatMessage := some tooManyJobsChatMessage }
      else if strIncludes errorMessage "lines of code limit breached" then
        { st with
          jobFailureErrorNotification := some linesOfCodeLimitBreachedNotification
          jobFailureErrorChatMessage := some linesOfCodeLimitBreachedChatMessage }
      else
        { st with
          jobFailureErrorNotification :=
            some (failedToStartJobNotification ++ " " ++ errorMessage)
          jobFailureErrorChatMessage :=
            some (failedToStartJobChatMessage ++ " " ++ errorMessage) }
    (Except.error TError.jobStartError, st, [Event.startJobCalled])
  | Except.ok jobId =>
    let st := applyCancel env CancelPoint.duringStartCall st
    let st := applyCancel env CancelPoint.postStartSleep st
    match throwIfCancelled st with
    | Except.error e => (Except.error e, st, [Event.startJobCalled])
    | Except.ok () => (Except.ok jobId, st, [Event.startJobCalled])

/-- `pollTransformationStatusUntilPlanReady` (lines 505-548): poll until a
plan-generated state; on poll failure set the generic texts where unset, try
to download pre-build error logs, and throw `TransformationPreBuildError` /
`PollJobError` (or the download error itself).  On success, SQL conversions
return before the `generatePlan` step is marked SUCCEEDED (lines 542-545). -/
def pollTransformationStatusUntilPlanReady (env : Env) (jobId : String) (st : QState) :
    Except TError Unit × QState × List Event :=
  match env.pollPlan with
  | Except.ok _ =>
    let st := applyCancel env CancelPoint.duringPlanPoll st
    if st.transformationType = TransformationType.sqlConversion then
      (Except.ok (), st, [Event.pollPlanCalled])
    else
      let st := { st with
        planProgress := { st.planProgress with generatePlan := StepProgress.succeeded } }
      match throwIfCancelled st with
      | Except.error e => (Except.error e, st, [Event.pollPlanCalled])
      | Except.ok () => (Except.ok (), st, [Event.pollPlanCalled])
  | Except.error _ =>
    let st := applyCancel env CancelPoint.duringPlanPoll st
    let st := setGenericFailureIfUnset st
    match env.downloadBuildLogs with
    | Except.error e =>
      let st := { st with preBuildLogFilePath := "" }
      (Except.error e, st, [Event.pollPlanCalled])
    | Except.ok () =>
      let st := { st with preBuildLogFilePath := buildCommandOutputLogPath }
      if env.buildLogExists = true ∧ st.status ≠ RunStatus.cancelled then
        (Except.error TError.transformationPreBuildError, st, [Event.pollPlanCalled])
      else
        let st := { st with preBuildLogFilePath := "" }
        (Except.error TError.pollJobError, st, [Event.pollPlanCalled])

/-- `pollTransformationStatusUntilComplete` (lines 550-566), the `n`-th
completion poll of the run: on poll failure set the generic texts where unset
and throw `PollJobError`; otherwise return the observed terminal status. -/
def pollTransformationStatusUntilComplete (env : Env) (n : Nat) (st : QState) :
    Except TError String × QState × List Event :=
  match env.pollComplete n with
  | Except.ok status =>
    let st := applyCancel env CancelPoint.duringCompletePoll st
    (Except.ok status, st, [Event.pollCompleteCalled])
  | Except.error _ =>
    let st := applyCancel env CancelPoint.duringCompletePoll st
    let st := setGenericFailureIfUnset st
    (Except.error TError.pollJobError, st, [Event.pollCompleteCalled])

/-- `finalizeTransformationJob` (lines 568-586): statuses other than
`COMPLETED`/`PARTIALLY_COMPLETED` mark the `transformCode` step FAILED, set
the generic texts where unset and throw; the two non-failing statuses set the
run SUCCEEDED (then PARTIALLY_SUCCEEDED) and mark `transformCode`
SUCCEEDED. -/
def finalizeTransformationJob (status : String) (st : QState) :
    Except TError Unit × QState :=
  if ¬(status = "COMPLETED" ∨ status = "PARTIALLY_COMPLETED") then
    let st := { st with
      planProgress := { st.planProgress with transformCode := StepProgress.failed } }
    let st := setGenericFailureIfUnset st
    (Except.error (TError.err "Job was not successful nor partially successful"), st)
  else
    let st := { st with status := RunStatus.succeeded }
    let st :=
      if status = "PARTIALLY_COMPLETED" then
        { st with status := RunStatus.partiallySucceeded }
      else st
    let st := { st with
      planProgress := { st.planProgress with transformCode := StepProgress.succeeded } }
    (Except.ok (), st)

/-- `transformationJobErrorHandler` (lines 744-777): when the run is not
cancelled, stop the remote job, mark the run FAILED and default the chat
message (`??`); when cancelled, report CANCELLED instead.  Either way the
`errorThrown` chat event fires (line 773). -/
def transformationJobErrorHandler (env : Env) (error : TError) (st : QState) :
    Except TError Unit × QState × List Event :=
  let _ := error
  if ¬st.status = RunStatus.cancelled then
    match env.stopJob with
    | Except.error e => (Except.error e, st, [Event.stopJobCalled st.jobId])
    | Except.ok () =>
      let st := { st with
        status := RunStatus.failed
        polledJobStatus := "FAILED"
        jobFailureErrorChatMessage :=
          some (st.jobFailureErrorChatMessage.getD failedToCompleteJobChatMessage) }
      (Except.ok (), st, [Event.stopJobCalled st.jobId, Event.errorThrownFired])
  else
    (Except.ok (),
      { st with status := RunStatus.cancelled, polledJobStatus := "CANCELLED" },
      [Event.errorThrownFired])

/-- `finalizeTransformByQ` (lines 190-197): run the finalization and route any
thrown error into `transformationJobErrorHandler`. -/
def finalizeTransformByQ (env : Env) (status : String) (st : QState) :
    Except TError Unit × QState × List Event :=
  match finalizeTransformationJob status st with
  | (Except.ok (), st) => (Except.ok (), st, [])
  | (Except.error e, st) => transformationJobErrorHandler env e st

/-- `terminateHILEarly` (lines 373-377): resume the remote job with the
`REJECTED` outcome. -/
def terminateHILEarly (resumeRejected : Except TError Unit) (jobID : String) :
    Except TError Unit × List Event :=
  (resumeRejected, [Event.resumeCalled jobID "REJECTED"])

/-- The catch block of `initiateHumanInTheLoopPrompt` (lines 334-349):
`terminateHILEarly` inside a try whose finally fires the `errorThrown` chat
event; if the resume call itself throws, that error propagates (skipping the
artifact cleanup), otherwise artifacts are cleaned up and the failure
indicator `true` is returned. -/
def hilCatch (henv : HilEnv) (jobId : String) (st : QState) :
    Except TError Bool × QState × List Event :=
  match terminateHILEarly henv.resumeRejected jobId with
  | (Except.error e, tr) => (Except.error e, st, tr ++ [Event.errorThrownFired])
  | (Except.ok (), tr) =>
    (Except.ok true, st, tr ++ [Event.errorThrownFired, Event.hilArtifactsCleanedUp])

/-- `initiateHumanInTheLoopPrompt` (lines 256-362): fetch the plan, locate the
downloadable artifact, download and parse it, rewrite the pom, run the maven
dependency tool, and prompt the user; every error (including the
`dependencyNoAvailableVersions` sentinel, lines 309-319) is routed through
the catch block (`hilCatch`).  Returns the `hilStatusFailure` boolean. -/
def initiateHumanInTheLoopPrompt (henv : HilEnv) (jobId : String) (st : QState) :
    Except TError Bool × QState × List Event :=
  match henv.getTransformationSteps with
  | Except.error _ => hilCatch henv jobId st
  | Except.ok () =>
    if ¬(henv.transformationStepFound = true ∧ henv.progressUpdateFound = true) then
      hilCatch henv jobId st
    else
      match henv.artifactId, henv.artifactType with
      | some _, some _ =>
        match henv.downloadHilResultArchive with
        | Except.error _ => hilCatch henv jobId st
        | Except.ok () =>
          match henv.getJsonValuesFromManifestFile with
          | Except.error _ => hilCatch henv jobId st
          | Except.ok _manifestSourcePomVersion =>
            match henv.createPomFileCopy with
            | Except.error _ => hilCatch henv jobId st
            | Except.ok () =>
              match henv.replacePomFileVersion with
              | Except.error _ => hilCatch henv jobId st
              | Except.ok () =>
                match henv.getCodeIssueSnippetFromPom with
                | Except.error _ => hilCatch henv jobId st
                | Except.ok () =>
                  match henv.runMavenDependencyUpdateCommands with
                  | Except.error _ => hilCatch henv jobId st
                  | Except.ok () =>
                    match henv.getDependencyListXmlOutput with
                    | Except.error _ => hilCatch henv jobId st
                    | Except.ok _xmlString =>
                      match henv.parseVersionsListFromPomFile with
                      | Except.error _ => hilCatch henv jobId st
                      | Except.ok versions =>
                        if versions.status = dependencyNoAvailableVersions then
                          match hilCatch henv jobId st with
                          | (r, st, tr) => (r, st, Event.errorThrownFired :: tr)
                        else
                          (Except.ok false, st, [Event.hilPromptFired])
      | _, _ => hilCatch henv jobId st

/-- The catch block of `finishHumanInTheLoop` (lines 434-444) followed by the
finally (lines 445-454): resume with `REJECTED`; if that throws, the error
propagates after the finally's artifact cleanup; otherwise the retry loop is
re-invoked (fire-and-forget `void humanInTheLoopRetryLogic`) and `false` is
returned.  `tr` holds the events of the failed try block. -/
def finishCatch (fenv : FinishEnv) (jobId : String) (st : QState) (tr : List Event) :
    Except TError Bool × QState × List Event :=
  match terminateHILEarly fenv.resumeRejected jobId with
  | (Except.error e, tr2) =>
    (Except.error e, st, tr ++ tr2 ++ [Event.hilArtifactsCleanedUp])
  | (Except.ok (), tr2) =>
    (Except.ok false, st,
      tr ++ tr2 ++ [Event.retryReentered, Event.hilArtifactsCleanedUp])

/-- `finishHumanInTheLoop` (lines 379-457): apply the user-selected dependency
version, re-upload the dependencies artifact, resume the remote job with the
`COMPLETED` outcome and re-enter the retry loop; on any failure fall into
`finishCatch`.  Returns `successfulFeedbackLoop`. -/
def finishHumanInTheLoop (fenv : FinishEnv) (selectedDependency : Option String)
    (st : QState) : Except TError Bool × QState × List Event :=
  let jobId := st.jobId
  match selectedDependency with
  | none => finishCatch fenv jobId st []
  | some _getUserInputValue =>
    match fenv.createPomFileCopy with
    | Except.error _ => finishCatch fenv jobId st []
    | Except.ok () =>
      match fenv.replacePomFileVersion with
      | Except.error _ => finishCatch fenv jobId st []
      | Except.ok () =>
        match fenv.prepareProjectDependencies with
        | Except.error _ => finishCatch fenv jobId st []
        | Except.ok () =>
          match fenv.zipCode with
          | Except.error _ => finishCatch fenv jobId st []
          | Except.ok _tempFilePath =>
            match fenv.uploadPayload with
            | Except.error _ => finishCatch fenv jobId st []
            | Except.ok () =>
              match fenv.resumeCompleted with
              | Except.error _ =>
                finishCatch fenv jobId st [Event.resumeCalled jobId "COMPLETED"]
              | Except.ok () =>
                (Except.ok true, st,
                  [Event.resumeCalled jobId "COMPLETED", Event.retryReentered,
                    Event.hilArtifactsCleanedUp])

/-- The catch block of `humanInTheLoopRetryLogic` (lines 183-187): set status
`'FAILED'`, run `finalizeTransformByQ` on it, then rethrow the original error
(unless the finalization itself threw). -/
def retryCatch (env : Env) (e : TError) (st : QState) (tr : List Event) :
    Except TError Unit × QState × List Event :=
  match finalizeTransformByQ env "FAILED" st with
  | (Except.ok (), st, tr2) => (Except.error e, st, tr ++ tr2)
  | (Except.error e2, st, tr2) => (Except.error e2, st, tr ++ tr2)

/-- `humanInTheLoopRetryLogic` (lines 170-188): poll until a terminal status;
on `PAUSED` run the HIL prompt and, when it reports failure, re-enter the
loop (fire-and-forget, so errors of the recursive invocation do not propagate
to this caller); otherwise finalize.  `n` numbers the poll/HIL attempts of
the run; `fuel` bounds the recursion depth (the source recursion is unbounded,
spec §9 flags this). -/
def humanInTheLoopRetryLogic (env : Env) (fuel n : Nat) (jobId : String) (st : QState) :
    Except TError Unit × QState × List Event :=
  match fuel with
  | 0 => (Except.ok (), st, [])
  | fuel + 1 =>
    match pollTransformationStatusUntilComplete env n st with
    | (Except.error e, st, tr) => retryCatch env e st tr
    | (Except.ok status, st, tr) =>
      if status = "PAUSED" then
        match initiateHumanInTheLoopPrompt (env.hil n) jobId st with
        | (Except.ok true, st, tr2) =>
          match humanInTheLoopRetryLogic env fuel (n + 1) jobId st with
          | (_, st, tr3) =>
            (Except.ok (), st, tr ++ tr2 ++ [Event.retryReentered] ++ tr3)
        | (Except.ok false, st, tr2) => (Except.ok (), st, tr ++ tr2)
        | (Except.error e, st, tr2) => retryCatch env e st (tr ++ tr2)
      else
        match finalizeTransformByQ env status st with
        | (Except.ok (), st, tr2) => (Except.ok (), st, tr ++ tr2)
        | (Except.error e, st, tr2) => retryCatch env e st (tr ++ tr2)

/-- The step-update helper of `postTransformationJob` (lines 656-667): each
progress entry that did not reach SUCCEEDED is marked FAILED. -/
def markFailedUnlessSucceeded (p : StepProgress) : StepProgress :=
  if ¬p = StepProgress.succeeded then StepProgress.failed else p

/-- `postTransformationJob` (lines 654-742): retroactively fail the
not-succeeded plan steps, fire the `transformationFinished` chat event and,
for (partially) succeeded runs, start the review flow. -/
def postTransformationJob (st : QState) : QState × List Event :=
  let st := { st with
    planProgress :=
      { uploadCode := markFailedUnlessSucceeded st.planProgress.uploadCode
        buildCode := markFailedUnlessSucceeded st.planProgress.buildCode
        generatePlan := markFailedUnlessSucceeded st.planProgress.generatePlan
        transformCode := markFailedUnlessSucceeded st.planProgress.transformCode } }
  (st,
    Event.transformationFinishedFired ::
      (if st.status = RunStatus.succeeded ∨ st.status = RunStatus.partiallySucceeded then
        [Event.reviewChangesStarted]
      else []))

/-- `cleanupTransformationJob` (lines 779-788): cancel the progress-refresh
interval timer and reset the job state to its idle defaults (`setJobDefaults`
is modelled from the spec §4.5: "resets JobState to its idle defaults so a
subsequent run starts clean"; the global `jobPlanProgress` map is a separate
global and is not touched here, faithful to the source). -/
def cleanupTransformationJob (st : QState) : QState × List Event :=
  let st := { st with intervalId := none }
  let st := { st with
    status := RunStatus.notStarted
    jobId := ""
    polledJobStatus := ""
    jobFailureErrorNotification := none
    jobFailureErrorChatMessage := none
    payloadFilePath := ""
    preBuildLogFilePath := ""
    hasSeenTransforming := false }
  (st, [Event.cleanupCalled])

/-- The try/catch of `startTransformByQ` (lines 139-156) together with the
first statement of its finally (`postTransformationJob`, line 158): run the
four stages, route any thrown error into `transformationJobErrorHandler`,
then run the post-processing.  This is the run up to (and excluding) cleanup,
so its state is the run's terminal disposition. -/
def startTransformByQCore (env : Env) (fuel : Nat) (st : QState) :
    Except TError Unit × QState × List Event :=
  let st := setTransformationToRunningState st
  let st := startInterval st
  let stageResult :=
    match preTransformationUploadCode env st with
    | (Except.error e, st, tr) => (Except.error e, st, tr)
    | (Except.ok uploadId, st, tr) =>
      match startTransformationJob env uploadId st with
      | (Except.error e, st, tr2) => (Except.error e, st, tr ++ tr2)
      | (Except.ok jobId, st, tr2) =>
        match pollTransformationStatusUntilPlanReady env jobId st with
        | (Except.error e, st, tr3) => (Except.error e, st, tr ++ tr2 ++ tr3)
        | (Except.ok (), st, tr3) =>
          match humanInTheLoopRetryLogic env fuel 0 jobId st with
          | (r, st, tr4) => (r, st, tr ++ tr2 ++ tr3 ++ tr4)
  match stageResult with
  | (Except.ok (), st, tr) =>
    match postTransformationJob st with
    | (st, trPost) => (Except.ok (), st, tr ++ trPost)
  | (Except.error e, st, tr) =>
    match transformationJobErrorHandler env e st with
    | (r, st, trHandler) =>
      match postTransformationJob st with
      | (st, trPost) => (r, st, tr ++ trHandler ++ trPost)

/-- `startTransformByQ` (lines 134-161): the core run followed by the
unconditional `cleanupTransformationJob` (second statement of the finally). -/
def startTransformByQ (env : Env) (fuel : Nat) (st : QState) :
    Except TError Unit × QState × List Event :=
  match startTransformByQCore env fuel st with
  | (r, st, tr) =>
    match cleanupTransformationJob st with
    | (st, trCleanup) => (r, st, tr ++ trCleanup)

/-! ### Trace counting -/

/-- Number of occurrences of an event in a trace. -/
def countEvent (e : Event) : List Event → Nat
  | [] => 0
  | x :: t => (if x = e then 1 else 0) + countEvent e t

/-- Number of `resumeTransformationJob` invocations with the given outcome
(any job id) in a trace. -/
def countResume (outcome : String) : List Event → Nat
  | [] => 0
  | Event.resumeCalled _ o :: t =>
    (if o = outcome then 1 else 0) + countResume outcome t
  | _ :: t => countResume outcome t

/-- Number of remote status polls (plan-ready or completion) in a trace. -/
def countPolls : List Event → Nat
  | [] => 0
  | Event.pollPlanCalled :: t => 1 + countPolls t
  | Event.pollCompleteCalled :: t => 1 + countPolls t
  | _ :: t => countPolls t

/-! ### Concrete fixtures for witnesses and counterexamples -/

/-- An idle state as a fresh run would find it. -/
def idleState : QState :=
  { status := RunStatus.notStarted
    polledJobStatus := ""
    jobId := ""
    jobFailureErrorNotification := none
    jobFailureErrorChatMessage := none
    payloadFilePath := ""
    preBuildLogFilePath := ""
    transformationType := TransformationType.languageUpgrade
    intervalId := none
    hasSeenTransforming := false
    planProgress :=
      { uploadCode := StepProgress.pending, buildCode := StepProgress.pending,
        generatePlan := StepProgress.pending, transformCode := StepProgress.pending } }

/-- A mid-run state with an assigned job id. -/
def runningStateJ1 : QState :=
  { idleState with status := RunStatus.running, jobId := "J1" }

/-- A mid-run state on which cancellation has been observed. -/
def cancelledState : QState :=
  { idleState with status := RunStatus.cancelled, polledJobStatus := "CANCELLED" }

/-- A HIL attempt in which every external call succeeds and the dependency
tool reports versions. -/
def hilEnvAllOk : HilEnv :=
  { getTransformationSteps := Except.ok ()
    transformationStepFound := true
    progressUpdateFound := true
    artifactId := some "A1"
    artifactType := some "Dependencies"
    downloadHilResultArchive := Except.ok ()
    getJsonValuesFromManifestFile := Except.ok "1.0.0"
    createPomFileCopy := Except.ok ()
    replacePomFileVersion := Except.ok ()
    getCodeIssueSnippetFromPom := Except.ok ()
    runMavenDependencyUpdateCommands := Except.ok ()
    getDependencyListXmlOutput := Except.ok "<xml/>"
    parseVersionsListFromPomFile :=
      Except.ok { latestVersion := "2.0.0", majorVersions := ["2.0.0"],
                  minorVersions := ["1.1.0"], status := "OK" }
    resumeRejected := Except.ok () }

/-- A HIL attempt in which the dependency tool reports the
no-available-versions sentinel. -/
def hilEnvNoVersions : HilEnv :=
  { hilEnvAllOk with
    parseVersionsListFromPomFile :=
      Except.ok { latestVersion := "", majorVersions := [],
                  minorVersions := [], status := dependencyNoAvailableVersions } }

/-- A HIL attempt in which the plan fetch fails and the `REJECTED` resume
call itself also fails. -/
def hilEnvDoubleFail : HilEnv :=
  { hilEnvAllOk with
    getTransformationSteps := Except.error (TError.err "plan fetch failed")
    resumeRejected := Except.error (TError.err "resume failed") }

/-- A `finishHumanInTheLoop` invocation in which every call succeeds. -/
def finishEnvAllOk : FinishEnv :=
  { createPomFileCopy := Except.ok ()
    replacePomFileVersion := Except.ok ()
    prepareProjectDependencies := Except.ok ()
    zipCode := Except.ok "/tmp/deps.zip"
    uploadPayload := Except.ok ()
    resumeCompleted := Except.ok ()
    resumeRejected := Except.ok () }

/-- A `finishHumanInTheLoop` invocation in which the `COMPLETED` resume call
itself throws (and the subsequent `REJECTED` resume succeeds). -/
def finishEnvResumeCompletedFails : FinishEnv :=
  { finishEnvAllOk with resumeCompleted := Except.error (TError.err "resume failed") }

/-- A full run in which every external call succeeds and the first completion
poll reports `COMPLETED`. -/
def envAllOk : Env :=
  { zipCode := Except.ok { tempFilePath := "/tmp/payload.zip", fileSize := 42 }
    uploadPayload := Except.ok "U1"
    startJob := Except.ok "J1"
    pollPlan := Except.ok "COMPLETED"
    downloadBuildLogs := Except.ok ()
    buildLogExists := false
    pollComplete := fun _ => Except.ok "COMPLETED"
    hil := fun _ => hilEnvAllOk
    stopJob := Except.ok ()
    cancelSignal := fun _ => false }

/-- A run in which the cancellation flag is raised while the task sleeps
between the post-upload cancellation check and the job start. -/
def envCancelDuringPostUploadSleep : Env :=
  { envAllOk with
    cancelSignal := fun p =>
      match p with
      | CancelPoint.postUploadSleep => true
      | _ => false }

/-- A run in which the cancellation flag is raised while the upload is in
flight (observed by the post-upload check). -/
def envCancelDuringUpload : Env :=
  { envAllOk with
    cancelSignal := fun p =>
      match p with
      | CancelPoint.duringUpload => true
      | _ => false }

/-- A run whose upload fails. -/
def envUploadFails : Env :=
  { envAllOk with uploadPayload := Except.error (TError.err "upload rejected") }

/-- A run whose remote `startJob` call fails with the quota message. -/
def envStartFailsQuota : Env :=
  { envAllOk with
    startJob := Except.error (TError.err "You have Too Many Active Running Jobs currently") }

/-- A run whose completion poll fails (transport error). -/
def envPollCompleteFails : Env :=
  { envAllOk with pollComplete := fun _ => Except.error (TError.err "transport error") }

/-- A run whose plan-ready poll fails (transport error). -/
def envPollPlanFails : Env :=
  { envAllOk with pollPlan := Except.error (TError.err "transport error") }

/-- A run whose first completion poll reports `PAUSED` and whose HIL attempt
fails with both the plan fetch and the `REJECTED` resume call throwing. -/
def envHilDoubleFail : Env :=
  { envAllOk with
    pollComplete := fun n => if n = 0 then Except.ok "PAUSED" else Except.ok "COMPLETED"
    hil := fun _ => hilEnvDoubleFail }

/-- A run whose first completion poll reports `PAUSED` and whose HIL attempt
terminates early on the no-available-versions sentinel (resume succeeding). -/
def envHilNoVersions : Env :=
  { envAllOk with
    pollComplete := fun n => if n = 0 then Except.ok "PAUSED" else Except.ok "COMPLETED"
    hil := fun _ => hilEnvNoVersions }

/-- A fresh-run state for a SQL conversion. -/
def idleSqlState : QState :=
  { idleState with transformationType := TransformationType.sqlConversion }

/-! ### Helper lemmas -/

theorem countEvent_append (e : Event) (a b : List Event) :
    countEvent e (a ++ b) = countEvent e a + countEvent e b := by
  induction a with
  | nil => simp [countEvent]
  | cons x t ih => simp [countEvent, ih]; omega

theorem countResume_append (o : String) (a b : List Event) :
    countResume o (a ++ b) = countResume o a + countResume o b := by
  induction a with
  | nil => simp [countResume]
  | cons x t ih =>
    cases x <;> simp [countResume, ih] <;> omega

theorem countPolls_append (a b : List Event) :
    countPolls (a ++ b) = countPolls a + countPolls b := by
  induction a with
  | nil => simp [countPolls]
  | cons x t ih =>
    cases x <;> simp [countPolls, ih] <;> omega

theorem applyCancel_of_signal_false {env : Env} {p : CancelPoint} (st : QState)
    (h : env.cancelSignal p = false) : applyCancel env p st = st := by
  simp [applyCancel, h]

/-- `setGenericFailureIfUnset` realises first-write-wins with the generic
default: the resulting message is the already-set one where present, the
generic copy otherwise. -/
theorem setGenericFailureIfUnset_spec (st : QState) :
    (setGenericFailureIfUnset st).jobFailureErrorNotification
        = some (st.jobFailureErrorNotification.getD failedToCompleteJobNotification) ∧
      (setGenericFailureIfUnset st).jobFailureErrorChatMessage
        = some (st.jobFailureErrorChatMessage.getD failedToCompleteJobChatMessage) := by
  unfold setGenericFailureIfUnset
  cases h1 : st.jobFailureErrorNotification <;>
    cases h2 : st.jobFailureErrorChatMessage <;> simp [h1, h2]

theorem hilCatch_spec (henv : HilEnv) (jobId : String) (st : QState) :
    (hilCatch henv jobId st).2.1 = st ∧
      countResume "REJECTED" (hilCatch henv jobId st).2.2 = 1 ∧
      countResume "COMPLETED" (hilCatch henv jobId st).2.2 = 0 ∧
      countPolls (hilCatch henv jobId st).2.2 = 0 ∧
      countEvent Event.retryReentered (hilCatch henv jobId st).2.2 = 0 ∧
      countEvent Event.cleanupCalled (hilCatch henv jobId st).2.2 = 0 ∧
      ((hilCatch henv jobId st).1 = Except.ok true ↔ henv.resumeRejected = Except.ok ()) ∧
      ¬(hilCatch henv jobId st).1 = Except.ok false ∧
      (henv.resumeRejected = Except.ok () →
        countEvent Event.hilArtifactsCleanedUp (hilCatch henv jobId st).2.2 = 1) := by
  unfold hilCatch terminateHILEarly
  cases h : henv.resumeRejected <;>
    simp [h, countResume, countPolls, countEvent]

/-- Every run of `initiateHumanInTheLoopPrompt` either reaches the user
prompt, or goes through the catch block (in the sentinel case after firing
the `errorThrown` chat event). -/
theorem initiate_cases (henv : HilEnv) (jobId : String) (st : QState) :
    initiateHumanInTheLoopPrompt henv jobId st
        = (Except.ok false, st, [Event.hilPromptFired]) ∨
      initiateHumanInTheLoopPrompt henv jobId st = hilCatch henv jobId st ∨
      initiateHumanInTheLoopPrompt henv jobId st
        = ((hilCatch henv jobId st).1, (hilCatch henv jobId st).2.1,
            Event.errorThrownFired :: (hilCatch henv jobId st).2.2) := by
  rcases hh : hilCatch henv jobId st with ⟨r, st', tr⟩
  unfold initiateHumanInTheLoopPrompt
  repeat' split
  all_goals simp_all

/-- Summary of one `initiateHumanInTheLoopPrompt` attempt: the state is never
mutated, no `COMPLETED` resume / poll / cleanup / loop re-entry appears in its
trace, and the outcome is either the prompt (`ok false`, no resume at all) or
the catch path (exactly one `REJECTED` resume invocation; the failure
indicator `ok true` is returned iff that resume call succeeded, in which case
the HIL artifacts were cleaned up). -/
theorem initiate_spec (henv : HilEnv) (jobId : String) (st : QState) :
    (initiateHumanInTheLoopPrompt henv jobId st).2.1 = st ∧
      countResume "COMPLETED" (initiateHumanInTheLoopPrompt henv jobId st).2.2 = 0 ∧
      countPolls (initiateHumanInTheLoopPrompt henv jobId st).2.2 = 0 ∧
      countEvent Event.retryReentered (initiateHumanInTheLoopPrompt henv jobId st).2.2 = 0 ∧
      countEvent Event.cleanupCalled (initiateHumanInTheLoopPrompt henv jobId st).2.2 = 0 ∧
      (((initiateHumanInTheLoopPrompt henv jobId st).1 = Except.ok false ∧
          countResume "REJECTED" (initiateHumanInTheLoopPrompt henv jobId st).2.2 = 0) ∨
        (countResume "REJECTED" (initiateHumanInTheLoopPrompt henv jobId st).2.2 = 1 ∧
          ¬(initiateHumanInTheLoopPrompt henv jobId st).1 = Except.ok false ∧
          ((initiateHumanInTheLoopPrompt henv jobId st).1 = Except.ok true ↔
            henv.resumeRejected = Except.ok ()) ∧
          (henv.resumeRejected = Except.ok () →
            countEvent Event.hilArtifactsCleanedUp
              (initiateHumanInTheLoopPrompt henv jobId st).2.2 = 1))) := by
  obtain ⟨hst, hrej, hcom, hpol, hret, hcl, hiff, hnf, hart⟩ := hilCatch_spec henv jobId st
  rcases initiate_cases henv jobId st with h | h | h <;> rw [h] <;>
    simp_all [countResume, countPolls, countEvent]

theorem finishCatch_spec (fenv : FinishEnv) (jobId : String) (st : QState)
    (tr : List Event) :
    (finishCatch fenv jobId st tr).2.1 = st ∧
      countResume "REJECTED" (finishCatch fenv jobId st tr).2.2
        = countResume "REJECTED" tr + 1 ∧
      countResume "COMPLETED" (finishCatch fenv jobId st tr).2.2
        = countResume "COMPLETED" tr ∧
      ¬(finishCatch fenv jobId st tr).1 = Except.ok true := by
  unfold finishCatch terminateHILEarly
  cases h : fenv.resumeRejected <;>
    simp [h, countResume_append, countResume]

/-- Every run of `finishHumanInTheLoop` either resumes with `COMPLETED` and
succeeds, or goes through the catch block — with a preceding `COMPLETED`
resume invocation exactly when that resume call itself threw. -/
theorem finish_cases (fenv : FinishEnv) (sel : Option String) (st : QState) :
    (finishHumanInTheLoop fenv sel st
          = (Except.ok true, st,
              [Event.resumeCalled st.jobId "COMPLETED", Event.retryReentered,
                Event.hilArtifactsCleanedUp]) ∧
        fenv.resumeCompleted = Except.ok ()) ∨
      finishHumanInTheLoop fenv sel st = finishCatch fenv st.jobId st [] ∨
      (¬fenv.resumeCompleted = Except.ok () ∧
        finishHumanInTheLoop fenv sel st
          = finishCatch fenv st.jobId st [Event.resumeCalled st.jobId "COMPLETED"]) := by
  unfold finishHumanInTheLoop
  repeat' split
  all_goals simp_all

theorem cleanup_free_preUpload (env : Env) (st : QState) :
    countEvent Event.cleanupCalled (preTransformationUploadCode env st).2.2 = 0 := by
  unfold preTransformationUploadCode throwIfCancelled
  repeat' split
  all_goals try simp [countEvent]
  all_goals try split
  all_goals try simp [countEvent]
  all_goals try split
  all_goals try simp [countEvent]
  all_goals try split
  all_goals try simp [countEvent]

theorem cleanup_free_startJob (env : Env) (uploadId : String) (st : QState) :
    countEvent Event.cleanupCalled (startTransformationJob env uploadId st).2.2 = 0 := by
  unfold startTransformationJob throwIfCancelled
  repeat' split
  all_goals try simp [countEvent]
  all_goals try split
  all_goals try simp [countEvent]
  all_goals try split
  all_goals try simp [countEvent]
  all_goals try split
  all_goals try simp [countEvent]

theorem cleanup_free_pollPlan (env : Env) (jobId : String) (st : QState) :
    countEvent Event.cleanupCalled
      (pollTransformationStatusUntilPlanReady env jobId st).2.2 = 0 := by
  unfold pollTransformationStatusUntilPlanReady throwIfCancelled
  repeat' split
  all_goals try simp [countEvent]
  all_goals try split
  all_goals try simp [countEvent]
  all_goals try split
  all_goals try simp [countEvent]
  all_goals try split
  all_goals try simp [countEvent]

theorem cleanup_free_pollComplete (env : Env) (n : Nat) (st : QState) :
    countEvent Event.cleanupCalled
      (pollTransformationStatusUntilComplete env n st).2.2 = 0 := by
  unfold pollTransformationStatusUntilComplete
  repeat' split
  all_goals simp [countEvent]

theorem cleanup_free_handler (env : Env) (e : TError) (st : QState) :
    countEvent Event.cleanupCalled (transformationJobErrorHandler env e st).2.2 = 0 := by
  unfold transformationJobErrorHandler
  repeat' split
  all_goals simp [countEvent]

theorem cleanup_free_finalizeByQ (env : Env) (s : String) (st : QState) :
    countEvent Event.cleanupCalled (finalizeTransformByQ env s st).2.2 = 0 := by
  unfold finalizeTransformByQ
  rcases h : finalizeTransformationJob s st with ⟨r, st'⟩
  cases r with
  | ok u => cases u; simp [countEvent]
  | error e => simpa using cleanup_free_handler env e st'

theorem cleanup_free_retryCatch (env : Env) (e : TError) (st : QState)
    (tr : List Event) (h : countEvent Event.cleanupCalled tr = 0) :
    countEvent Event.cleanupCalled (retryCatch env e st tr).2.2 = 0 := by
  unfold retryCatch
  rcases hf : finalizeTransformByQ env "FAILED" st with ⟨r, st', tr'⟩
  have := cleanup_free_finalizeByQ env "FAILED" st
  rw [hf] at this
  cases r with
  | ok u => cases u; simpa [countEvent_append, h] using this
  | error e2 => simpa [countEvent_append, h] using this

theorem cleanup_free_retry (env : Env) :
    ∀ (fuel n : Nat) (jobId : String) (st : QState),
      countEvent Event.cleanupCalled
        (humanInTheLoopRetryLogic env fuel n jobId st).2.2 = 0 := by
  intro fuel
  induction fuel with
  | zero => intro n jobId st; simp [humanInTheLoopRetryLogic, countEvent]
  | succ f ih =>
    intro n jobId st
    unfold humanInTheLoopRetryLogic
    rcases hp : pollTransformationStatusUntilComplete env n st with ⟨r, st1, tr1⟩
    have hp0 : countEvent Event.cleanupCalled tr1 = 0 := by
      have := cleanup_free_pollComplete env n st
      rw [hp] at this; exact this
    cases r with
    | error e => exact cleanup_free_retryCatch env e st1 tr1 hp0
    | ok status =>
      by_cases hs : status = "PAUSED"
      · simp only [hs, if_pos rfl]
        rcases hi : initiateHumanInTheLoopPrompt (env.hil n) jobId st1 with ⟨r2, st2, tr2⟩
        have hi0 : countEvent Event.cleanupCalled tr2 = 0 := by
          have := (initiate_spec (env.hil n) jobId st1).2.2.2.2.1
          rw [hi] at this; exact this
        cases r2 with
        | error e =>
          exact cleanup_free_retryCatch env e st2 (tr1 ++ tr2)
            (by simp [countEvent_append, hp0, hi0])
        | ok b =>
          cases b with
          | true =>
            rcases hr : humanInTheLoopRetryLogic env f (n + 1) jobId st2 with ⟨r3, st3, tr3⟩
            have h3 : countEvent Event.cleanupCalled tr3 = 0 := by
              have := ih (n + 1) jobId st2
              rw [hr] at this; exact this
            simp [hr, countEvent_append, countEvent, hp0, hi0, h3]
          | false => simp [countEvent_append, hp0, hi0]
      · simp only [if_neg hs]
        rcases hfin : finalizeTransformByQ env status st1 with ⟨r3, st3, tr3⟩
        have h3 : countEvent Event.cleanupCalled tr3 = 0 := by
          have := cleanup_free_finalizeByQ env status st1
          rw [hfin] at this; exact this
        cases r3 with
        | ok u =>
          cases u; simp [countEvent_append, hp0, h3]
        | error e =>
          exact cleanup_free_retryCatch env e st3 (tr1 ++ tr3)
            (by simp [countEvent_append, hp0, h3])

theorem cleanup_free_post (st : QState) :
    countEvent Event.cleanupCalled (postTransformationJob st).2 = 0 := by
  unfold postTransformationJob
  simp only [countEvent, reduceCtorEq, if_false]
  split
  all_goals simp [countEvent]

theorem cleanup_free_core (env : Env) (fuel : Nat) (st : QState) :
    countEvent Event.cleanupCalled (startTransformByQCore env fuel st).2.2 = 0 := by
  unfold startTransformByQCore
  rcases hu : preTransformationUploadCode env (startInterval (setTransformationToRunningState st))
    with ⟨r, st1, tr1⟩
  have h1 : countEvent Event.cleanupCalled tr1 = 0 := by
    have := cleanup_free_preUpload env (startInterval (setTransformationToRunningState st))
    rw [hu] at this; exact this
  have hpost : ∀ s : QState, countEvent Event.cleanupCalled (postTransformationJob s).2 = 0 :=
    cleanup_free_post
  have hhandler : ∀ (e : TError) (s : QState),
      countEvent Event.cleanupCalled (transformationJobErrorHandler env e s).2.2 = 0 :=
    fun e s => cleanup_free_handler env e s
  cases r with
  | error e =>
    rcases hh : transformationJobErrorHandler env e st1 with ⟨rh, sth, trh⟩
    have hh0 := hhandler e st1; rw [hh] at hh0
    rcases hpo : postTransformationJob sth with ⟨stp, trp⟩
    have hp0 := hpost sth; rw [hpo] at hp0
    simp [hu, hh, hpo, countEvent_append, h1, hh0, hp0]
  | ok uploadId =>
    rcases hs : startTransformationJob env uploadId st1 with ⟨r2, st2, tr2⟩
    have h2 : countEvent Event.cleanupCalled tr2 = 0 := by
      have := cleanup_free_startJob env uploadId st1
      rw [hs] at this; exact this
    cases r2 with
    | error e =>
      rcases hh : transformationJobErrorHandler env e st2 with ⟨rh, sth, trh⟩
      have hh0 := hhandler e st2; rw [hh] at hh0
      rcases hpo : postTransformationJob sth with ⟨stp, trp⟩
      have hp0 := hpost sth; rw [hpo] at hp0
      simp [hu, hs, hh, hpo, countEvent_append, h1, h2, hh0, hp0]
    | ok jobId =>
      rcases hpl : pollTransformationStatusUntilPlanReady env jobId st2 with ⟨r3, st3, tr3⟩
      have h3 : countEvent Event.cleanupCalled tr3 = 0 := by
        have := cleanup_free_pollPlan env jobId st2
        rw [hpl] at this; exact this
      cases r3 with
      | error e =>
        rcases hh : transformationJobErrorHandler env e st3 with ⟨rh, sth, trh⟩
        have hh0 := hhandler e st3; rw [hh] at hh0
        rcases hpo : postTransformationJob sth with ⟨stp, trp⟩
        have hp0 := hpost sth; rw [hpo] at hp0
        simp [hu, hs, hpl, hh, hpo, countEvent_append, h1, h2, h3, hh0, hp0]
      | ok u =>
        cases u
        rcases hr : humanInTheLoopRetryLogic env fuel 0 jobId st3 with ⟨r4, st4, tr4⟩
        have h4 : countEvent Event.cleanupCalled tr4 = 0 := by
          have := cleanup_free_retry env fuel 0 jobId st3
          rw [hr] at this; exact this
        cases r4 with
        | error e =>
          rcases hh : transformationJobErrorHandler env e st4 with ⟨rh, sth, trh⟩
          have hh0 := hhandler e st4; rw [hh] at hh0
          rcases hpo : postTransformationJob sth with ⟨stp, trp⟩
          have hp0 := hpost sth; rw [hpo] at hp0
          simp [hu, hs, hpl, hr, hh, hpo, countEvent_append, h1, h2, h3, h4, hh0, hp0]
        | ok u =>
          cases u
          rcases hpo : postTransformationJob st4 with ⟨stp, trp⟩
          have hp0 := hpost st4; rw [hpo] at hp0
          simp [hu, hs, hpl, hr, hpo, countEvent_append, h1, h2, h3, h4, hp0]

theorem polls_free_preUpload (env : Env) (st : QState) :
    countPolls (preTransformationUploadCode env st).2.2 = 0 := by
  unfold preTransformationUploadCode throwIfCancelled
  repeat' split
  all_goals try simp [countPolls]
  all_goals try split
  all_goals try simp [countPolls]
  all_goals try split
  all_goals try simp [countPolls]

theorem polls_free_startJob (env : Env) (uploadId : String) (st : QState) :
    countPolls (startTransformationJob env uploadId st).2.2 = 0 := by
  unfold startTransformationJob throwIfCancelled
  repeat' split
  all_goals try simp [countPolls]
  all_goals try split
  all_goals try simp [countPolls]
  all_goals try split
  all_goals try simp [countPolls]

theorem polls_free_handler (env : Env) (e : TError) (st : QState) :
    countPolls (transformationJobErrorHandler env e st).2.2 = 0 := by
  unfold transformationJobErrorHandler
  repeat' split
  all_goals simp [countPolls]

theorem polls_free_post (st : QState) :
    countPolls (postTransformationJob st).2 = 0 := by
  unfold postTransformationJob
  simp only [countPolls, reduceCtorEq]
  split
  all_goals simp [countPolls]

/-- `postTransformationJob` does not change the run status (it only updates
the plan-progress entries). -/
theorem post_preserves_status (st : QState) :
    (postTransformationJob st).1.status = st.status := rfl

/-- `postTransformationJob` on the plan-progress entries: not-succeeded
entries become FAILED, succeeded ones stay. -/
theorem post_planProgress (st : QState) :
    (postTransformationJob st).1.planProgress.uploadCode
        = markFailedUnlessSucceeded st.planProgress.uploadCode ∧
      (postTransformationJob st).1.planProgress.buildCode
        = markFailedUnlessSucceeded st.planProgress.buildCode ∧
      (postTransformationJob st).1.planProgress.generatePlan
        = markFailedUnlessSucceeded st.planProgress.generatePlan ∧
      (postTransformationJob st).1.planProgress.transformCode
        = markFailedUnlessSucceeded st.planProgress.transformCode :=
  ⟨rfl, rfl, rfl, rfl⟩

theorem markFailed_of_ne {p : StepProgress} (h : ¬p = StepProgress.succeeded) :
    markFailedUnlessSucceeded p = StepProgress.failed := by
  simp [markFailedUnlessSucceeded, h]

theorem markFailed_of_eq {p : StepProgress} (h : p = StepProgress.succeeded) :
    markFailedUnlessSucceeded p = StepProgress.succeeded := by
  simp [markFailedUnlessSucceeded, h]

/-! ### Claims -/

/-- C1: for every status string passed to finalization, only `COMPLETED` and
`PARTIALLY_COMPLETED` are non-failing: for any other status value (on a run
on which cancellation has not been observed, with the remote stop succeeding)
the finalization path marks the run FAILED, marks the `transformCode` plan
step FAILED, and `postTransformationJob` afterwards retroactively marks every
plan-step progress entry that is not SUCCEEDED as FAILED. -/
theorem finalize_nonterminal_marks_run_failed
    (env : Env) (status : String) (st stF stP : QState)
    (hC : ¬status = "COMPLETED") (hP : ¬status = "PARTIALLY_COMPLETED")
    (hnc : ¬st.status = RunStatus.cancelled) (hstop : env.stopJob = Except.ok ())
    (heF : stF = (finalizeTransformByQ env status st).2.1)
    (heP : stP = (postTransformationJob stF).1) :
    stF.status = RunStatus.failed ∧
      stF.polledJobStatus = "FAILED" ∧
      stF.planProgress.transformCode = StepProgress.failed ∧
      stP.status = RunStatus.failed ∧
      stP.planProgress.transformCode = StepProgress.failed ∧
      (¬st.planProgress.uploadCode = StepProgress.succeeded →
        stP.planProgress.uploadCode = StepProgress.failed) ∧
      (¬st.planProgress.buildCode = StepProgress.succeeded →
        stP.planProgress.buildCode = StepProgress.failed) ∧
      (¬st.planProgress.generatePlan = StepProgress.succeeded →
        stP.planProgress.generatePlan = StepProgress.failed) ∧
      (st.planProgress.uploadCode = StepProgress.succeeded →
        stP.planProgress.uploadCode = StepProgress.succeeded) ∧
      (st.planProgress.buildCode = StepProgress.succeeded →
        stP.planProgress.buildCode = StepProgress.succeeded) ∧
      (st.planProgress.generatePlan = StepProgress.succeeded →
        stP.planProgress.generatePlan = StepProgress.succeeded) := by
  subst heF heP
  unfold finalizeTransformByQ finalizeTransformationJob transformationJobErrorHandler
    setGenericFailureIfUnset
  cases h1 : st.jobFailureErrorNotification <;> cases h2 : st.jobFailureErrorChatMessage <;>
    simp [hC, hP, hnc, hstop, h1, h2, post_preserves_status, post_planProgress,
      postTransformationJob, markFailedUnlessSucceeded]
  all_goals
    exact ⟨fun h hh => absurd hh h, fun h hh => absurd hh h, fun h hh => absurd hh h,
      fun h => by simp [h], fun h => by simp [h], fun h => by simp [h]⟩

/-- C1 witness: a non-cancelled run finalized with status `"FAILED"` ends
FAILED. -/
theorem finalize_nonterminal_marks_run_failed_witness :
    (finalizeTransformByQ envAllOk "FAILED" runningStateJ1).2.1.status = RunStatus.failed :=
  (finalize_nonterminal_marks_run_failed envAllOk "FAILED" runningStateJ1
    (finalizeTransformByQ envAllOk "FAILED" runningStateJ1).2.1
    (postTransformationJob (finalizeTransformByQ envAllOk "FAILED" runningStateJ1).2.1).1
    (by decide) (by decide) (by decide) rfl rfl rfl).1

/-- C2 counterexample: when the `COMPLETED` resume call itself throws,
`finishHumanInTheLoop` invokes `resumeTransformationJob` with `COMPLETED`
*and then* with `REJECTED` for the same resolved HIL attempt — both outcome
notifications are sent, refuting "exactly one such outcome notification is
sent per resolved HIL attempt, never both". -/
theorem hil_finish_sends_both_outcomes_counterexample :
    countResume "COMPLETED"
        (finishHumanInTheLoop finishEnvResumeCompletedFails (some "2.0.0")
          runningStateJ1).2.2 = 1 ∧
      countResume "REJECTED"
        (finishHumanInTheLoop finishEnvResumeCompletedFails (some "2.0.0")
          runningStateJ1).2.2 = 1 := by
  decide

/-- C2 amended: per resolved HIL attempt, a successful `finishHumanInTheLoop`
invokes `resume(jobId, COMPLETED)` exactly once and `REJECTED` never; every
other outcome of `finishHumanInTheLoop` invokes `REJECTED` exactly once; both
outcomes are invoked in the same attempt only when the `COMPLETED` resume
call itself threw.  A HIL attempt terminated inside
`initiateHumanInTheLoopPrompt` invokes `REJECTED` exactly once and
`COMPLETED` never, and an attempt that reaches the user prompt invokes
neither. -/
theorem hil_attempt_resume_outcomes
    (fenv : FinishEnv) (sel : Option String) (henv : HilEnv) (jobId : String)
    (st : QState) :
    ((finishHumanInTheLoop fenv sel st).1 = Except.ok true →
        countResume "COMPLETED" (finishHumanInTheLoop fenv sel st).2.2 = 1 ∧
          countResume "REJECTED" (finishHumanInTheLoop fenv sel st).2.2 = 0) ∧
      (¬(finishHumanInTheLoop fenv sel st).1 = Except.ok true →
        countResume "REJECTED" (finishHumanInTheLoop fenv sel st).2.2 = 1) ∧
      (countResume "COMPLETED" (finishHumanInTheLoop fenv sel st).2.2 = 1 →
        countResume "REJECTED" (finishHumanInTheLoop fenv sel st).2.2 = 1 →
        ¬fenv.resumeCompleted = Except.ok ()) ∧
      (¬(initiateHumanInTheLoopPrompt henv jobId st).1 = Except.ok false →
        countResume "REJECTED" (initiateHumanInTheLoopPrompt henv jobId st).2.2 = 1 ∧
          countResume "COMPLETED" (initiateHumanInTheLoopPrompt henv jobId st).2.2 = 0) ∧
      ((initiateHumanInTheLoopPrompt henv jobId st).1 = Except.ok false →
        countResume "REJECTED" (initiateHumanInTheLoopPrompt henv jobId st).2.2 = 0 ∧
          countResume "COMPLETED" (initiateHumanInTheLoopPrompt henv jobId st).2.2 = 0) := by
  obtain ⟨hist, hicom, hipol, hiret, hicl, hicase⟩ := initiate_spec henv jobId st
  have hfin := finish_cases fenv sel st
  have hcat0 := finishCatch_spec fenv st.jobId st []
  have hcat1 := finishCatch_spec fenv st.jobId st [Event.resumeCalled st.jobId "COMPLETED"]
  refine ⟨?_, ?_, ?_, ?_, ?_⟩
  · intro h
    rcases hfin with ⟨heq, hok⟩ | heq | ⟨hne, heq⟩
    · rw [heq]; simp [countResume]
    · rw [heq] at h; exact absurd h hcat0.2.2.2
    · rw [heq] at h; exact absurd h hcat1.2.2.2
  · intro h
    rcases hfin with ⟨heq, hok⟩ | heq | ⟨hne, heq⟩
    · rw [heq] at h; simp at h
    · rw [heq]; simpa [countResume] using hcat0.2.1
    · rw [heq]; simpa [countResume] using hcat1.2.1
  · intro hcom hrej
    rcases hfin with ⟨heq, hok⟩ | heq | ⟨hne, heq⟩
    · rw [heq] at hrej; simp [countResume] at hrej
    · rw [heq] at hcom
      rw [hcat0.2.2.1] at hcom
      simp [countResume] at hcom
    · exact hne
  · intro h
    rcases hicase with ⟨hok, hrej⟩ | ⟨hrej, hnf, hiff, hart⟩
    · exact absurd hok h
    · exact ⟨hrej, hicom⟩
  · intro h
    rcases hicase with ⟨hok, hrej⟩ | ⟨hrej, hnf, hiff, hart⟩
    · exact ⟨hrej, hicom⟩
    · exact absurd h hnf

/-- C2 amended witness: a fully successful finish invokes `COMPLETED` once
and `REJECTED` never. -/
theorem hil_attempt_resume_outcomes_witness :
    countResume "COMPLETED"
        (finishHumanInTheLoop finishEnvAllOk (some "2.0.0") runningStateJ1).2.2 = 1 ∧
      countResume "REJECTED"
        (finishHumanInTheLoop finishEnvAllOk (some "2.0.0") runningStateJ1).2.2 = 0 :=
  (hil_attempt_resume_outcomes finishEnvAllOk (some "2.0.0") hilEnvAllOk "J1"
    runningStateJ1).1 (by rfl)

/-- C3 counterexample: on a run on which cancellation has already been
observed (status CANCELLED), `finalizeTransformationJob` applied to a
`COMPLETED` poll result sets the status to SUCCEEDED — a later code path does
set a cancelled run to SUCCEEDED, refuting the claim. -/
theorem cancelled_overwritten_by_finalize_counterexample :
    (finalizeTransformationJob "COMPLETED" cancelledState).2.status
      = RunStatus.succeeded := by
  decide

/-- C3 amended: once cancellation has been observed (status CANCELLED), the
error handler reports the run as CANCELLED rather than classifying the error
as FAILED (and invokes no remote stop), and every *non-completed* finalization
leaves the status CANCELLED; only `finalizeTransformationJob` on a
`COMPLETED`/`PARTIALLY_COMPLETED` poll result still overwrites the status
with SUCCEEDED/PARTIALLY_SUCCEEDED. -/
theorem cancelled_dominates_error_paths
    (env : Env) (e : TError) (st : QState) (s : String)
    (hc : st.status = RunStatus.cancelled) :
    (transformationJobErrorHandler env e st).2.1.status = RunStatus.cancelled ∧
      (transformationJobErrorHandler env e st).2.1.polledJobStatus = "CANCELLED" ∧
      countEvent (Event.stopJobCalled st.jobId)
        (transformationJobErrorHandler env e st).2.2 = 0 ∧
      (¬s = "COMPLETED" → ¬s = "PARTIALLY_COMPLETED" →
        (finalizeTransformationJob s st).2.status = RunStatus.cancelled ∧
          (finalizeTransformByQ env s st).2.1.status = RunStatus.cancelled) ∧
      (s = "COMPLETED" ∨ s = "PARTIALLY_COMPLETED" →
        ¬(finalizeTransformationJob s st).2.status = RunStatus.cancelled) := by
  refine ⟨?_, ?_, ?_, ?_, ?_⟩
  · simp [transformationJobErrorHandler, hc]
  · simp [transformationJobErrorHandler, hc]
  · simp [transformationJobErrorHandler, hc, countEvent]
  · intro h1 h2
    constructor
    · unfold finalizeTransformationJob setGenericFailureIfUnset
      cases hn : st.jobFailureErrorNotification <;>
        cases hm : st.jobFailureErrorChatMessage <;> simp [h1, h2, hn, hm, hc]
    · unfold finalizeTransformByQ
      rcases hf : finalizeTransformationJob s st with ⟨r, st2⟩
      have hst2 : st2.status = RunStatus.cancelled := by
        have : (finalizeTransformationJob s st).2.status = RunStatus.cancelled := by
          unfold finalizeTransformationJob setGenericFailureIfUnset
          cases hn : st.jobFailureErrorNotification <;>
            cases hm : st.jobFailureErrorChatMessage <;> simp [h1, h2, hn, hm, hc]
        rw [hf] at this; exact this
      cases r with
      | ok u => cases u; simp [hst2]
      | error e2 => simp [transformationJobErrorHandler, hst2]
  · intro h
    unfold finalizeTransformationJob
    rcases h with h | h <;> simp [h]

/-- C3 amended witness: the error handler on a cancelled run reports
CANCELLED. -/
theorem cancelled_dominates_error_paths_witness :
    (transformationJobErrorHandler envAllOk TError.pollJobError cancelledState).2.1.status
      = RunStatus.cancelled :=
  (cancelled_dominates_error_paths envAllOk TError.pollJobError cancelledState "FAILED"
    (by decide)).1

/-- C4: on every failure of the remote `startJob` call,
`startTransformationJob` classifies the lowercased error message into the
quota / LOC-limit / generic texts, raises `JobStartError`, and the run aborts
without ever polling (and, when no cancellation was observed and the remote
stop succeeds, ends FAILED). -/
theorem startJob_failure_classification
    (env : Env) (uploadId : String) (st : QState) (e : TError) (fuel : Nat)
    (hs : env.startJob = Except.error e) :
    (startTransformationJob env uploadId st).1 = Except.error TError.jobStartError ∧
      (strIncludes (strLower e.message) "too many active running jobs" = true →
        (startTransformationJob env uploadId st).2.1.jobFailureErrorNotification
            = some tooManyJobsNotification ∧
          (startTransformationJob env uploadId st).2.1.jobFailureErrorChatMessage
            = some tooManyJobsChatMessage) ∧
      (strIncludes (strLower e.message) "too many active running jobs" = false →
        strIncludes (strLower e.message) "lines of code limit breached" = true →
        (startTransformationJob env uploadId st).2.1.jobFailureErrorNotification
            = some linesOfCodeLimitBreachedNotification ∧
          (startTransformationJob env uploadId st).2.1.jobFailureErrorChatMessage
            = some linesOfCodeLimitBreachedChatMessage) ∧
      (strIncludes (strLower e.message) "too many active running jobs" = false →
        strIncludes (strLower e.message) "lines of code limit breached" = false →
        (startTransformationJob env uploadId st).2.1.jobFailureErrorNotification
            = some (failedToStartJobNotification ++ " " ++ strLower e.message) ∧
          (startTransformationJob env uploadId st).2.1.jobFailureErrorChatMessage
            = some (failedToStartJobChatMessage ++ " " ++ strLower e.message)) ∧
      countPolls (startTransformByQCore env fuel st).2.2 = 0 ∧
      ((∀ p, env.cancelSignal p = false) →
        ∀ (zr : ZipCodeResult) (uid : String), env.zipCode = Except.ok zr →
        env.uploadPayload = Except.ok uid → env.stopJob = Except.ok () →
        (startTransformByQCore env fuel st).2.1.status = RunStatus.failed) := by
  refine ⟨?_, ?_, ?_, ?_, ?_, ?_⟩
  · unfold startTransformationJob; rw [hs]
  · intro h1
    unfold startTransformationJob; rw [hs]; simp [h1]
  · intro h1 h2
    unfold startTransformationJob; rw [hs]; simp [h1, h2]
  · intro h1 h2
    unfold startTransformationJob; rw [hs]; simp [h1, h2]
  · unfold startTransformByQCore
    rcases hu : preTransformationUploadCode env (startInterval (setTransformationToRunningState st))
      with ⟨r, st1, tr1⟩
    have h1 : countPolls tr1 = 0 := by
      have := polls_free_preUpload env (startInterval (setTransformationToRunningState st))
      rw [hu] at this; exact this
    cases r with
    | error e2 =>
      rcases hh : transformationJobErrorHandler env e2 st1 with ⟨rh, sth, trh⟩
      have hh0 := polls_free_handler env e2 st1; rw [hh] at hh0
      rcases hpo : postTransformationJob sth with ⟨stp, trp⟩
      have hp0 := polls_free_post sth; rw [hpo] at hp0
      simp [hu, hh, hpo, countPolls_append, h1, hh0, hp0]
    | ok uid =>
      rcases hst : startTransformationJob env uid st1 with ⟨r2, st2, tr2⟩
      have h2 : countPolls tr2 = 0 := by
        have := polls_free_startJob env uid st1
        rw [hst] at this; exact this
      have hr2 : r2 = Except.error TError.jobStartError := by
        have : (startTransformationJob env uid st1).1 = Except.error TError.jobStartError := by
          unfold startTransformationJob; rw [hs]
        rw [hst] at this; exact this
      subst hr2
      rcases hh : transformationJobErrorHandler env TError.jobStartError st2 with ⟨rh, sth, trh⟩
      have hh0 := polls_free_handler env TError.jobStartError st2; rw [hh] at hh0
      rcases hpo : postTransformationJob sth with ⟨stp, trp⟩
      have hp0 := polls_free_post sth; rw [hpo] at hp0
      simp [hu, hst, hh, hpo, countPolls_append, h1, h2, hh0, hp0]
  · intro hcan zr uid hz hup hstop
    unfold startTransformByQCore preTransformationUploadCode startTransformationJob
      transformationJobErrorHandler throwIfCancelled setTransformationToRunningState startInterval
    by_cases h1 : strIncludes (strLower e.message) "too many active running jobs" = true <;>
      by_cases h2 : strIncludes (strLower e.message) "lines of code limit breached" = true <;>
        simp [hz, hup, hs, hstop, applyCancel, hcan, h1, h2, post_preserves_status,
          postTransformationJob]

/-- C4 witness: a start failure whose message contains the quota phrase sets
the quota-specific notification and the run never polls. -/
theorem startJob_failure_classification_witness :
    (startTransformationJob envStartFailsQuota "U1" runningStateJ1).2.1.jobFailureErrorNotification
        = some tooManyJobsNotification ∧
      (startTransformationJob envStartFailsQuota "U1"
          runningStateJ1).2.1.jobFailureErrorChatMessage = some tooManyJobsChatMessage :=
  ((startJob_failure_classification envStartFailsQuota "U1" runningStateJ1
    (TError.err "You have Too Many Active Running Jobs currently") 1 rfl).2.1) (by decide)

/-- C5 counterexample: when the cancellation flag is raised between upload
completion and job start — here while the task sleeps after the post-upload
cancellation check (line 251) — the submission stage does *not* short-circuit:
the remote start call is still issued (`startJobCalled` appears in the trace),
refuting "the submission stage short-circuits before issuing the start call".
(The run still ends CANCELLED.) -/
theorem cancel_between_upload_and_start_counterexample :
    countEvent Event.startJobCalled
        (startTransformByQCore envCancelDuringPostUploadSleep 1 idleState).2.2 = 1 ∧
      (startTransformByQCore envCancelDuringPostUploadSleep 1 idleState).2.1.status
        = RunStatus.cancelled := by
  decide

/-- C5 amended: cancellation raised while the upload is in flight is caught by
the post-upload check (line 250) and short-circuits before the start call;
cancellation raised after that check (during the post-upload cooldown) is only
detected by the post-start check (line 500); in either case polling never
begins and the run's final status is CANCELLED. -/
theorem cancellation_before_polling
    (env : Env) (st : QState) (zr : ZipCodeResult) (uid : String) (fuel : Nat)
    (hz : env.zipCode = Except.ok zr) (hu : env.uploadPayload = Except.ok uid) :
    (env.cancelSignal CancelPoint.duringUpload = true →
        countEvent Event.startJobCalled (startTransformByQCore env fuel st).2.2 = 0 ∧
          countPolls (startTransformByQCore env fuel st).2.2 = 0 ∧
          (startTransformByQCore env fuel st).2.1.status = RunStatus.cancelled) ∧
      (env.cancelSignal CancelPoint.postUploadSleep = true →
        countPolls (startTransformByQCore env fuel st).2.2 = 0 ∧
          (startTransformByQCore env fuel st).2.1.status = RunStatus.cancelled) := by
  constructor
  · intro hsig
    simp [startTransformByQCore, preTransformationUploadCode, throwIfCancelled,
      setTransformationToRunningState, startInterval, applyCancel, hz, hu, hsig,
      transformationJobErrorHandler, postTransformationJob, countPolls_append,
      countPolls, countEvent]
  · intro hsig2
    by_cases hd : env.cancelSignal CancelPoint.duringUpload = true
    · simp [startTransformByQCore, preTransformationUploadCode, throwIfCancelled,
        setTransformationToRunningState, startInterval, applyCancel, hz, hu, hd,
        transformationJobErrorHandler, postTransformationJob, countPolls_append,
        countPolls, countEvent]
    · have hd' : env.cancelSignal CancelPoint.duringUpload = false := by
        cases h : env.cancelSignal CancelPoint.duringUpload
        · rfl
        · exact absurd h hd
      cases hsj : env.startJob with
      | error e =>
        by_cases h1 : strIncludes (strLower e.message) "too many active running jobs" = true <;>
          by_cases h2 : strIncludes (strLower e.message) "lines of code limit breached" = true <;>
            simp [startTransformByQCore, preTransformationUploadCode, startTransformationJob,
              throwIfCancelled, setTransformationToRunningState, startInterval, applyCancel,
              hz, hu, hd', hsig2, hsj, h1, h2, transformationJobErrorHandler,
              postTransformationJob, countPolls_append, countPolls, countEvent]
      | ok jid =>
        simp [startTransformByQCore, preTransformationUploadCode, startTransformationJob,
          throwIfCancelled, setTransformationToRunningState, startInterval, applyCancel,
          hz, hu, hd', hsig2, hsj, transformationJobErrorHandler,
          postTransformationJob, countPolls_append, countPolls, countEvent]

/-- C5 amended witness: the post-upload-sleep cancellation run never polls and
ends CANCELLED. -/
theorem cancellation_before_polling_witness :
    countPolls (startTransformByQCore envCancelDuringPostUploadSleep 1 idleState).2.2 = 0 ∧
      (startTransformByQCore envCancelDuringPostUploadSleep 1 idleState).2.1.status
        = RunStatus.cancelled :=
  (cancellation_before_polling envCancelDuringPostUploadSleep idleState
    ⟨"/tmp/payload.zip", 42⟩ "U1" 1 rfl rfl).2 rfl

/-- C6 counterexample: when the error raised inside the HIL branch is
followed by the `REJECTED` resume call itself throwing, the error escapes
`initiateHumanInTheLoopPrompt` and aborts the parent job: the retry loop
rethrows it and the run is finalized FAILED instead of re-entering the
completion-polling loop — refuting "the error never aborts the parent job". -/
theorem hil_error_aborts_run_counterexample :
    (humanInTheLoopRetryLogic envHilDoubleFail 2 0 "J1" runningStateJ1).1
        = Except.error (TError.err "resume failed") ∧
      (humanInTheLoopRetryLogic envHilDoubleFail 2 0 "J1" runningStateJ1).2.1.status
        = RunStatus.failed := by
  constructor
  · rfl
  · decide

/-- C6 amended: provided the `REJECTED` resume call succeeds, every error
raised inside the HIL branch (including the no-available-versions sentinel)
is contained: `initiateHumanInTheLoopPrompt` never throws, and on failure it
resumes the remote job with `REJECTED` exactly once, cleans up the HIL
artifacts and returns the failure indicator; the retry loop then re-enters
the completion-polling loop, and when the next poll reports `COMPLETED` the
run reaches the terminal state SUCCEEDED. -/
theorem hil_error_containment
    (henv : HilEnv) (jobId : String) (st : QState) (env : Env) :
    (henv.resumeRejected = Except.ok () →
        ((initiateHumanInTheLoopPrompt henv jobId st).1 = Except.ok true ∨
            (initiateHumanInTheLoopPrompt henv jobId st).1 = Except.ok false) ∧
          ((initiateHumanInTheLoopPrompt henv jobId st).1 = Except.ok true →
            countResume "REJECTED" (initiateHumanInTheLoopPrompt henv jobId st).2.2 = 1 ∧
              countEvent Event.hilArtifactsCleanedUp
                (initiateHumanInTheLoopPrompt henv jobId st).2.2 = 1)) ∧
      (env.pollComplete 0 = Except.ok "PAUSED" →
        (initiateHumanInTheLoopPrompt (env.hil 0) jobId st).1 = Except.ok true →
        env.pollComplete 1 = Except.ok "COMPLETED" →
        (∀ p, env.cancelSignal p = false) →
        (humanInTheLoopRetryLogic env 2 0 jobId st).1 = Except.ok () ∧
          (humanInTheLoopRetryLogic env 2 0 jobId st).2.1.status = RunStatus.succeeded ∧
          countEvent Event.retryReentered
            (humanInTheLoopRetryLogic env 2 0 jobId st).2.2 = 1 ∧
          countPolls (humanInTheLoopRetryLogic env 2 0 jobId st).2.2 = 2) := by
  constructor
  · intro hok
    obtain ⟨hist, hicom, hipol, hiret, hicl, hicase⟩ := initiate_spec henv jobId st
    rcases hicase with ⟨hfalse, hrej⟩ | ⟨hrej, hnf, hiff, hart⟩
    · exact ⟨Or.inr hfalse, fun h => by rw [h] at hfalse; cases hfalse⟩
    · refine ⟨Or.inl (hiff.mpr hok), fun _ => ⟨hrej, hart hok⟩⟩
  · intro hp0 hinit hp1 hcan
    obtain ⟨hist, hicom, hipol, hiret, hicl, hicase⟩ := initiate_spec (env.hil 0) jobId st
    have hpoll0 : pollTransformationStatusUntilComplete env 0 st
        = (Except.ok "PAUSED", st, [Event.pollCompleteCalled]) := by
      unfold pollTransformationStatusUntilComplete
      simp [hp0, applyCancel, hcan]
    have hpoll1 : pollTransformationStatusUntilComplete env 1 st
        = (Except.ok "COMPLETED", st, [Event.pollCompleteCalled]) := by
      unfold pollTransformationStatusUntilComplete
      simp [hp1, applyCancel, hcan]
    rcases hi : initiateHumanInTheLoopPrompt (env.hil 0) jobId st with ⟨r2, st2, tr2⟩
    have hr2 : r2 = Except.ok true := by rw [hi] at hinit; exact hinit
    have hst2 : st2 = st := by rw [hi] at hist; exact hist
    subst hr2
    rw [hst2] at hi
    rw [hi] at hiret hipol
    simp only at hiret hipol
    have hfin : (finalizeTransformByQ env "COMPLETED" st).1 = Except.ok () ∧
        (finalizeTransformByQ env "COMPLETED" st).2.1.status = RunStatus.succeeded ∧
        (finalizeTransformByQ env "COMPLETED" st).2.2 = [] := by
      unfold finalizeTransformByQ finalizeTransformationJob
      simp
    rcases hf : finalizeTransformByQ env "COMPLETED" st with ⟨rf, stf, trf⟩
    rw [hf] at hfin
    simp only at hfin
    obtain ⟨hfr, hfs, hft⟩ := hfin
    subst hfr
    subst hft
    simp only [humanInTheLoopRetryLogic, hpoll0, hpoll1, hi, hf]
    simp [countPolls_append, countEvent_append, countPolls, countEvent, hiret, hipol, hfs]

/-- C6 amended witness: the no-available-versions HIL failure is contained and
the run reaches SUCCEEDED after re-entering the poll loop. -/
theorem hil_error_containment_witness :
    (humanInTheLoopRetryLogic envHilNoVersions 2 0 "J1" runningStateJ1).1 = Except.ok () ∧
      (humanInTheLoopRetryLogic envHilNoVersions 2 0 "J1" runningStateJ1).2.1.status
        = RunStatus.succeeded ∧
      countEvent Event.retryReentered
        (humanInTheLoopRetryLogic envHilNoVersions 2 0 "J1" runningStateJ1).2.2 = 1 ∧
      countPolls (humanInTheLoopRetryLogic envHilNoVersions 2 0 "J1" runningStateJ1).2.2 = 2 :=
  (hil_error_containment hilEnvNoVersions "J1" runningStateJ1 envHilNoVersions).2
    rfl rfl rfl (fun p => rfl)

/-- C7: `cleanupTransformationJob` is executed exactly once on every exit
path of `startTransformByQ` — whatever the external-call outcomes,
cancellation schedule and HIL depth of the run — and invoking it twice gives
the same state as invoking it once. -/
theorem cleanup_exactly_once_and_idempotent :
    (∀ (env : Env) (fuel : Nat) (st : QState),
        countEvent Event.cleanupCalled (startTransformByQ env fuel st).2.2 = 1) ∧
      ∀ st : QState,
        (cleanupTransformationJob (cleanupTransformationJob st).1).1
          = (cleanupTransformationJob st).1 := by
  constructor
  · intro env fuel st
    unfold startTransformByQ cleanupTransformationJob
    rcases hc : startTransformByQCore env fuel st with ⟨r, st1, tr1⟩
    have h1 := cleanup_free_core env fuel st
    rw [hc] at h1
    simp only at h1
    simp [countEvent_append, countEvent, h1]
  · intro st
    rfl

/-- C8: on every polling failure (plan-ready or completion poll), the generic
"job did not complete" notification and chat message are set on the state
only where no value was already set — the first non-empty value written is
the one retained. -/
theorem poll_failure_first_message_wins
    (env : Env) (n : Nat) (jobId : String) (st : QState) (e e2 : TError) :
    (env.pollComplete n = Except.error e →
        (pollTransformationStatusUntilComplete env n st).2.1.jobFailureErrorNotification
            = some (st.jobFailureErrorNotification.getD failedToCompleteJobNotification) ∧
          (pollTransformationStatusUntilComplete env n st).2.1.jobFailureErrorChatMessage
            = some (st.jobFailureErrorChatMessage.getD failedToCompleteJobChatMessage)) ∧
      (env.pollPlan = Except.error e2 →
        (pollTransformationStatusUntilPlanReady env jobId st).2.1.jobFailureErrorNotification
            = some (st.jobFailureErrorNotification.getD failedToCompleteJobNotification) ∧
          (pollTransformationStatusUntilPlanReady env jobId st).2.1.jobFailureErrorChatMessage
            = some (st.jobFailureErrorChatMessage.getD failedToCompleteJobChatMessage)) := by
  constructor
  · intro h
    unfold pollTransformationStatusUntilComplete
    rw [h]
    have hmsg := setGenericFailureIfUnset_spec (applyCancel env CancelPoint.duringCompletePoll st)
    have hn : (applyCancel env CancelPoint.duringCompletePoll st).jobFailureErrorNotification
        = st.jobFailureErrorNotification := by
      unfold applyCancel; split <;> rfl
    have hm : (applyCancel env CancelPoint.duringCompletePoll st).jobFailureErrorChatMessage
        = st.jobFailureErrorChatMessage := by
      unfold applyCancel; split <;> rfl
    rw [hn, hm] at hmsg
    exact hmsg
  · intro h
    unfold pollTransformationStatusUntilPlanReady
    simp only [h]
    have hmsg := setGenericFailureIfUnset_spec (applyCancel env CancelPoint.duringPlanPoll st)
    have hn : (applyCancel env CancelPoint.duringPlanPoll st).jobFailureErrorNotification
        = st.jobFailureErrorNotification := by
      unfold applyCancel; split <;> rfl
    have hm : (applyCancel env CancelPoint.duringPlanPoll st).jobFailureErrorChatMessage
        = st.jobFailureErrorChatMessage := by
      unfold applyCancel; split <;> rfl
    rw [hn, hm] at hmsg
    rcases hd : env.downloadBuildLogs with e3 | u
    · simp [hd, hmsg.1, hmsg.2]
    · cases u
      simp only [hd]
      split <;> simp [hmsg.1, hmsg.2]

/-- C8 witness: a failing completion poll on a state that already carries a
notification keeps it, and sets the generic chat copy where none was set. -/
theorem poll_failure_first_message_wins_witness :
    (pollTransformationStatusUntilComplete envPollCompleteFails 0
          { runningStateJ1 with jobFailureErrorNotification := some "already set" }
        ).2.1.jobFailureErrorNotification = some "already set" ∧
      (pollTransformationStatusUntilComplete envPollCompleteFails 0
          { runningStateJ1 with jobFailureErrorNotification := some "already set" }
        ).2.1.jobFailureErrorChatMessage = some failedToCompleteJobChatMessage :=
  (poll_failure_first_message_wins envPollCompleteFails 0 "J1"
    { runningStateJ1 with jobFailureErrorNotification := some "already set" }
    (TError.err "transport error") (TError.err "transport error")).1 rfl

/-- C9: for every SQL_CONVERSION run, `pollTransformationStatusUntilPlanReady`
returns without touching the `generatePlan` plan step, so at the end of the
run `postTransformationJob` marks `generatePlan` FAILED — even on a run that
finishes SUCCEEDED. -/
theorem sql_conversion_generatePlan_marked_failed
    (env : Env) (fuel : Nat) (st : QState) (zr : ZipCodeResult)
    (uid jid s : String)
    (hsql : st.transformationType = TransformationType.sqlConversion)
    (hz : env.zipCode = Except.ok zr) (hu : env.uploadPayload = Except.ok uid)
    (hsj : env.startJob = Except.ok jid) (hpp : env.pollPlan = Except.ok s)
    (hpc : env.pollComplete 0 = Except.ok "COMPLETED")
    (hcan : ∀ p, env.cancelSignal p = false) :
    (pollTransformationStatusUntilPlanReady env jid st).2.1.planProgress.generatePlan
        = st.planProgress.generatePlan ∧
      (startTransformByQCore env (fuel + 1) st).2.1.status = RunStatus.succeeded ∧
      (startTransformByQCore env (fuel + 1) st).2.1.planProgress.generatePlan
        = StepProgress.failed := by
  refine ⟨?_, ?_⟩
  · unfold pollTransformationStatusUntilPlanReady
    rw [hpp]
    simp [applyCancel, hcan, hsql]
  · unfold startTransformByQCore preTransformationUploadCode startTransformationJob
      pollTransformationStatusUntilPlanReady humanInTheLoopRetryLogic
      pollTransformationStatusUntilComplete finalizeTransformByQ finalizeTransformationJob
      throwIfCancelled setTransformationToRunningState startInterval
    simp [hz, hu, hsj, hpp, hpc, applyCancel, hcan, hsql, postTransformationJob,
      markFailedUnlessSucceeded]

/-- C9 witness: the all-successful SQL-conversion run ends SUCCEEDED with the
`generatePlan` step FAILED. -/
theorem sql_conversion_generatePlan_marked_failed_witness :
    (startTransformByQCore envAllOk 1 idleSqlState).2.1.status = RunStatus.succeeded ∧
      (startTransformByQCore envAllOk 1 idleSqlState).2.1.planProgress.generatePlan
        = StepProgress.failed :=
  (sql_conversion_generatePlan_marked_failed envAllOk 0 idleSqlState
    ⟨"/tmp/payload.zip", 42⟩ "U1" "J1" "COMPLETED" rfl rfl rfl rfl rfl rfl
    (fun p => rfl)).2

/-- C10: a run that fails before the remote start assigns a job id (here: the
upload fails) reaches `transformationJobErrorHandler` with the empty-string
job id — which was reset at the start of the run — so the remote `stopJob`
operation is invoked with the empty-string job id. -/
theorem early_failure_stops_empty_jobId
    (env : Env) (fuel : Nat) (st : QState) (e : TError) (zr : ZipCodeResult)
    (hcan : ∀ p, env.cancelSignal p = false) :
    (setTransformationToRunningState st).jobId = "" ∧
      (env.zipCode = Except.error e →
        countEvent (Event.stopJobCalled "") (startTransformByQCore env fuel st).2.2 = 1) ∧
      (env.zipCode = Except.ok zr → env.uploadPayload = Except.error e →
        countEvent (Event.stopJobCalled "") (startTransformByQCore env fuel st).2.2 = 1) := by
  refine ⟨rfl, ?_, ?_⟩
  · intro hz
    unfold startTransformByQCore preTransformationUploadCode transformationJobErrorHandler
      throwIfCancelled setTransformationToRunningState startInterval
    cases hstop : env.stopJob <;>
      simp [hz, hstop, applyCancel, hcan, postTransformationJob, countEvent_append,
        countEvent]
  · intro hz hu
    unfold startTransformByQCore preTransformationUploadCode transformationJobErrorHandler
      throwIfCancelled setTransformationToRunningState startInterval
    cases hstop : env.stopJob <;>
      simp [hz, hu, hstop, applyCancel, hcan, postTransformationJob, countEvent_append,
        countEvent]

/-- C10 witness: the upload-failure run calls `stopJob` with `""`. -/
theorem early_failure_stops_empty_jobId_witness :
    countEvent (Event.stopJobCalled "") (startTransformByQCore envUploadFails 1 idleState).2.2
      = 1 :=
  ((early_failure_stops_empty_jobId envUploadFails 1 idleState
    (TError.err "upload rejected") ⟨"/tmp/payload.zip", 42⟩ (fun p => rfl)).2.2) rfl rfl

end StartTransformByQ
